import Mathlib

set_option maxRecDepth 8000

namespace Eway

/-- Model of the JSON value space exchanged by the integration: inbound
WebSocket payloads and HTTP RPC bodies are decoded Python objects
(`None`, `bool`, numbers, `str`, `list`, `dict`).  Python dicts preserve
insertion order, so objects are modelled as ordered association lists.
Numbers are modelled as rationals (both Python `int` and `float` map here). -/
inductive Json where
  | null : Json
  | bool : Bool → Json
  | num : Rat → Json
  | str : String → Json
  | arr : List Json → Json
  | obj : List (String × Json) → Json
deriving Repr

/-- Python `d.get(k)` on a dict: the value of the first (unique) binding of
`k`, or `None`-as-absence when the key is missing. -/
def dictLookup (d : List (String × Json)) (k : String) : Option Json :=
  (d.find? (fun p => p.1 = k)).map (fun p => p.2)

/-- Python `k in d` key-membership test on a dict. -/
def dictMem (d : List (String × Json)) (k : String) : Bool :=
  d.any (fun p => p.1 = k)

/-- Python `d[k] = v` on a dict: overwrite in place (keeping the key's
original insertion position) or append a fresh binding at the end. -/
def dictSet (d : List (String × Json)) (k : String) (v : Json) : List (String × Json) :=
  if dictMem d k then d.map (fun p => if p.1 = k then (k, v) else p)
  else d ++ [(k, v)]

/-- Python truthiness of a decoded JSON value (`bool(x)`). -/
def Json.truthy : Json → Bool
  | .null => false
  | .bool b => b
  | .num q => q ≠ 0
  | .str s => s ≠ ""
  | .arr l => !l.isEmpty
  | .obj l => !l.isEmpty

/-- Whether the value is a Python dict. -/
def Json.isObj : Json → Bool
  | .obj _ => true
  | _ => false

/-- Python `x == n` against an integer literal: true only for numeric values
(`int`, `float`, `bool`) equal to `n`. -/
def Json.eqInt (j : Json) (n : Int) : Bool :=
  match j with
  | .num q => q = (n : Rat)
  | .bool b => (if b then (1 : Int) else 0) = n
  | _ => false

/-- Decimal digit run to a natural number. -/
def digitsToNat (ds : List Char) : Nat :=
  ds.foldl (fun acc c => acc * 10 + (c.toNat - 48)) 0

/-- Python `int(s)` on a string: an optional sign followed by at least one
digit (surrounding whitespace and digit-group underscores, which Python
also tolerates, are not produced by this protocol); `none` models the
raised `ValueError`. -/
def strToIntPy (s : String) : Option Int :=
  match s.data with
  | [] => none
  | '-' :: ds =>
    if ds ≠ [] ∧ ds.all Char.isDigit then some (-(digitsToNat ds : Int)) else none
  | '+' :: ds =>
    if ds ≠ [] ∧ ds.all Char.isDigit then some ((digitsToNat ds : Int)) else none
  | ds =>
    if ds.all Char.isDigit then some ((digitsToNat ds : Int)) else none

/-- Python `int(x)`: succeeds on `bool`, `int`, `float` (truncating toward
zero) and on integer-formatted strings; `none` models the raised
`ValueError`/`TypeError` on anything else. -/
def Json.toIntPy : Json → Option Int
  | .bool b => some (if b then 1 else 0)
  | .num q => some (q.num.tdiv q.den)
  | .str s => strToIntPy s
  | _ => none

/-- Python `isinstance(x, (int, float))`, which also accepts `bool`;
returns the numeric value used in comparisons. -/
def Json.asNumber : Json → Option Rat
  | .num q => some q
  | .bool b => some (if b then 1 else 0)
  | _ => none

theorem dictLookup_dictSet_self (d : List (String × Json)) (k : String) (v : Json) :
    dictLookup (dictSet d k v) k = some v := by
  unfold dictSet
  by_cases h : dictMem d k
  · simp only [h, if_true]
    unfold dictMem at h
    induction d with
    | nil => simp at h
    | cons p rest ih =>
      by_cases hp : p.1 = k
      · simp [dictLookup, List.find?, hp]
      · simp only [List.any_cons, decide_eq_true_eq, hp, false_or] at h
        simpa [dictLookup, List.find?, hp] using ih h
  · simp only [h, if_false]
    unfold dictMem at h
    induction d with
    | nil => simp [dictLookup]
    | cons p rest ih =>
      simp only [List.any_cons, Bool.or_eq_true, decide_eq_true_eq] at h
      push_neg at h
      simpa [dictLookup, List.find?, h.1] using ih (by simpa using h.2)

/-! ## Charger coordinator: charging real-time telemetry (`/monitor2/post`)

Embeds `EwayChargerCoordinator._handle_charging_realtime_data` and
`EwayChargerCoordinator._map_signal_strength` from
`custom_components/eway/coordinator.py`. -/

/-- `EwayChargerCoordinator._map_signal_strength`: `None` or `-1` map to `-1`
("signal unavailable"); `int`/`float`/`str` inputs go through `int(rssi)`
(`none` models the raised `ValueError` on a non-numeric string); anything
else maps to `-1`. -/
def mapSignalStrength (rssi : Json) : Option Json :=
  match rssi with
  | .null => some (.num (-1))
  | j =>
    if j.eqInt (-1) then some (.num (-1))
    else
      match j with
      | .num q => some (.num ((q.num.tdiv q.den : Int) : Rat))
      | .bool b => some (.num (if b then 1 else 0))
      | .str s => (strToIntPy s).map (fun n => Json.num (n : Rat))
      | _ => some (.num (-1))

/-- The `charging_realtime` sub-object written into the device-data snapshot. -/
structure ChargingRealtime where
  amount : Json
  current : Json
  current_l1 : Json
  current_l2 : Json
  current_l3 : Json
  duration : Json
  duty_cycle : Json
  imt4g_rssi : Json
  moisture : Json
  power : Json
  temperature : Json
  voltage : Json
  wifi_rssi : Json
deriving Repr

/-- `EwayChargerCoordinator._handle_charging_realtime_data` applied to an
object payload: every vendor field is read with a fixed default; only the
4G field goes through `_map_signal_strength` — `wifiRssi` is stored raw
(default `0`).  `none` models an exception raised by the `int()` conversion
inside `_map_signal_strength`. -/
def handleChargingRealtimeData (payload : List (String × Json)) : Option ChargingRealtime := do
  let imt ← mapSignalStrength ((dictLookup payload "imt4gRssi").getD (.num (-1)))
  some {
    amount := (dictLookup payload "amount").getD (.num 0)
    current := (dictLookup payload "current").getD (.num 0)
    current_l1 := (dictLookup payload "currentL1").getD (.num 0)
    current_l2 := (dictLookup payload "currentL2").getD (.num 0)
    current_l3 := (dictLookup payload "currentL3").getD (.num 0)
    duration := (dictLookup payload "duration").getD (.num 0)
    duty_cycle := (dictLookup payload "dutyCycle").getD (.num 0)
    imt4g_rssi := imt
    moisture := (dictLookup payload "moisture").getD (.num 0)
    power := (dictLookup payload "power").getD (.num 0)
    temperature := (dictLookup payload "temperature").getD (.num 0)
    voltage := (dictLookup payload "voltage").getD (.num 0)
    wifi_rssi := (dictLookup payload "wifiRssi").getD (.num 0) }

/-- `EwayRealtimeDataSensor.native_value` for the `realtime_wifi_rssi`
sensor (`custom_components/eway/sensor.py`): reads the stored
`charging_realtime.wifi_rssi` value and maps the `-1` sentinel to
`None` ("unavailable"). -/
def wifiRssiNativeValue (r : ChargingRealtime) : Option Json :=
  if r.wifi_rssi.eqInt (-1) then none else some r.wifi_rssi

/-! ## Smart-plug coordinator: status mapping

Embeds `EwaySmartPlugCoordinator._map_api_response` from
`custom_components/eway/coordinator.py`. -/

/-- The eight-field record produced by the smart-plug status mapper. -/
structure SmartPlugData where
  switch_state : Json
  power : Json
  voltage : Json
  current : Json
  frequency : Json
  temperature : Json
  energy_total : Json
  ret_energy_total : Json
deriving Repr

/-- Python `data.get(k, {}).get(sub, dflt)`: `none` models the
`AttributeError` raised when the outer field is present but not a dict. -/
def getNested (d : List (String × Json)) (k sub : String) (dflt : Json) : Option Json :=
  match (dictLookup d k).getD (.obj []) with
  | .obj o => some ((dictLookup o sub).getD dflt)
  | _ => none

/-- `EwaySmartPlugCoordinator._map_api_response`: maps the vendor
`Switch.GetStatus` body to the eight internal fields, defaulting every
missing field (`False` for the switch, `0.0` for numerics).  `none` models
the exception raised when `temperature`/`aenergy`/`ret_aenergy` is present
but not an object, or when the body itself is not an object. -/
def spMapApiResponse (data : Json) : Option SmartPlugData :=
  match data with
  | .obj d => do
    let temp ← getNested d "temperature" "tC" (.num 0)
    let etotal ← getNested d "aenergy" "total" (.num 0)
    let rtotal ← getNested d "ret_aenergy" "total" (.num 0)
    some {
      switch_state := (dictLookup d "output").getD (.bool false)
      power := (dictLookup d "apower").getD (.num 0)
      voltage := (dictLookup d "voltage").getD (.num 0)
      current := (dictLookup d "current").getD (.num 0)
      frequency := (dictLookup d "freq").getD (.num 0)
      temperature := temp
      energy_total := etotal
      ret_energy_total := rtotal }
  | _ => none

/-- Bool-valued "if the key is present its value is a dict" condition used
as the hypothesis for the smart-plug mapper's totality. -/
def objIfPresent (d : List (String × Json)) (k : String) : Bool :=
  match dictLookup d k with
  | some v => v.isObj
  | none => true

/-! ## Charger coordinator: batched device-status array (`/property/post`)

Embeds the three-record batch branch of
`EwayChargerCoordinator._handle_device_status_message`. -/

/-- The `device_status` delta assembled from a batch status array; `none`
means the key was not assigned by this batch. -/
structure DeviceStatusDelta where
  gun_status : Option Int
  charging_status : Option Int
  pile_status : Option Int
deriving DecidableEq, Repr

/-- One record of `device_status_responses`; the timestamp is the single
`time.time()` captured at the top of the handler. -/
structure StatusResponse where
  id : Option Json
  value : Option Json
  remark : Json
  user_id : Json
  timestamp : Rat
deriving Repr

/-- `int(value) if value else 0`: falsy values (missing, `None`, `""`, `0`)
give `0`; otherwise `int(value)`, whose failure (`none`) models the raised
exception. -/
def statusIntVal (v : Option Json) : Option Int :=
  match v with
  | none => some 0
  | some j => if j.truthy then j.toIntPy else some 0

/-- `item.get("id") in ["gun-status", "charge-status", "pile-status"]`. -/
def isStatusId (j : Json) : Bool :=
  match j with
  | .str s => s = "gun-status" || s = "charge-status" || s = "pile-status"
  | _ => false

/-- Short-circuit evaluation of
`all(item.get("id") in [...] for item in payload)`: `none` models the
`AttributeError` raised by `item.get` on a non-dict item. -/
def statusGuardGo : List Json → Option Bool
  | [] => some true
  | it :: rest =>
    match it with
    | .obj o => if isStatusId ((dictLookup o "id").getD .null) then statusGuardGo rest else some false
    | _ => none

/-- The batch guard `len(payload) == 3 and all(item.get("id") in [...])`. -/
def statusArrayGuard (payload : List Json) : Option Bool :=
  if payload.length = 3 then statusGuardGo payload else some false

/-- The per-item response record appended to `status_responses`. -/
def respOf (t : Rat) (o : List (String × Json)) : StatusResponse :=
  { id := dictLookup o "id"
    value := dictLookup o "value"
    remark := (dictLookup o "remark").getD (.str "")
    user_id := (dictLookup o "userId").getD (.str "")
    timestamp := t }

/-- One iteration of the batch loop: assigns the `device_status` key selected
by the item's `id`, and appends the item's response record.  `none` models an
exception (non-dict item, or a failing `int(value)` conversion), which aborts
the whole handler before anything is written to the snapshot. -/
def processStatusItem (t : Rat) (acc : Option (DeviceStatusDelta × List StatusResponse))
    (item : Json) : Option (DeviceStatusDelta × List StatusResponse) :=
  match acc with
  | none => none
  | some (ds, rs) =>
    match item with
    | .obj o =>
      match dictLookup o "id" with
      | some (.str s) =>
        if s = "gun-status" then
          match statusIntVal (dictLookup o "value") with
          | some n => some ({ ds with gun_status := some n }, rs ++ [respOf t o])
          | none => none
        else if s = "charge-status" then
          match statusIntVal (dictLookup o "value") with
          | some n => some ({ ds with charging_status := some n }, rs ++ [respOf t o])
          | none => none
        else if s = "pile-status" then
          match statusIntVal (dictLookup o "value") with
          | some n => some ({ ds with pile_status := some n }, rs ++ [respOf t o])
          | none => none
        else some (ds, rs ++ [respOf t o])
      | _ => some (ds, rs ++ [respOf t o])
    | _ => none

/-- The batch loop of `_handle_device_status_message` over a status array:
produces the `device_status` delta that is merged into the snapshot and the
list that wholesale-replaces `device_status_responses`. -/
def runStatusBatch (t : Rat) (payload : List Json) :
    Option (DeviceStatusDelta × List StatusResponse) :=
  payload.foldl (processStatusItem t)
    (some ({ gun_status := none, charging_status := none, pile_status := none }, []))

/-- `self._device_data["device_status"].update(device_status)`: keys assigned
by the delta overwrite, others persist. -/
def applyStatusDelta (cur δ : DeviceStatusDelta) : DeviceStatusDelta :=
  { gun_status := match δ.gun_status with | some v => some v | none => cur.gun_status
    charging_status := match δ.charging_status with | some v => some v | none => cur.charging_status
    pile_status := match δ.pile_status with | some v => some v | none => cur.pile_status }

/-- `item.get("id")` on a payload entry; `none` covers both a missing key and
a non-dict entry. -/
def jsonId : Json → Option Json
  | .obj o => dictLookup o "id"
  | _ => none

/-- The gun-status record of the specification's example batch array. -/
def gunStatusRecord : Json := .obj [("id", .str "gun-status"), ("value", .str "1")]

/-- The charge-status record of the specification's example batch array. -/
def chargeStatusRecord : Json := .obj [("id", .str "charge-status"), ("value", .str "0")]

/-- The pile-status record of the specification's example batch array. -/
def pileStatusRecord : Json := .obj [("id", .str "pile-status"), ("value", .str "1")]

/-- The example batch array from the specification. -/
def exampleStatusArray : List Json :=
  [gunStatusRecord, chargeStatusRecord, pileStatusRecord]

/-! ## CT coordinator: HTTP polling state machine and field mapping

Embeds `EwayCTCoordinator._async_update_data`,
`EwayCTCoordinator._map_api_response` and
`EwayCTCoordinator.async_set_anti_backflow`. -/

/-- The alias preference lists of `EwayCTCoordinator._map_api_response`,
paired with the standardized field each one feeds. -/
def ctAliasGroups : List (String × List String) :=
  [("voltage", ["voltage", "volt", "v", "ct_voltage"]),
   ("current", ["current", "curr", "amp", "a", "ct_current"]),
   ("act_power", ["act_power", "active_power", "power", "watt", "w", "ct_act_power"]),
   ("aprt_power", ["aprt_power", "apparent_power", "va", "ct_aprt_power"]),
   ("pf", ["pf", "power_factor", "factor", "ct_pf"]),
   ("freq", ["freq", "frequency", "hz", "ct_freq"]),
   ("errors", ["errors", "error", "ct_errors"]),
   ("flags", ["flags", "status", "ct_flags"]),
   ("calibration", ["calibration", "cal", "ct_calibration"])]

/-- The alias-mapping pass: for each standardized field, the first alias
present in the response wins (`for key in [...]: if key in data: ...; break`). -/
def ctAliasPass (data : List (String × Json)) : List (String × Json) :=
  ctAliasGroups.foldl
    (fun mapped g =>
      match g.2.findSome? (fun k => dictLookup data k) with
      | some v => dictSet mapped g.1 v
      | none => mapped)
    []

/-- One step of the numeric value-range guessing fallback, applied to one
`(key, value)` item of the response body. -/
def ctGuessStep (mapped : List (String × Json)) (kv : String × Json) :
    List (String × Json) :=
  match kv.2.asNumber with
  | none => mapped
  | some v =>
    if 200 ≤ v ∧ v ≤ 250 then dictSet mapped "voltage" kv.2
    else if 0 ≤ v ∧ v ≤ 100 then
      (if v ≤ 1 then dictSet mapped "pf" kv.2 else dictSet mapped "current" kv.2)
    else if 45 ≤ v ∧ v ≤ 65 then dictSet mapped "freq" kv.2
    else if v > 100 then
      (if dictMem mapped "power" then mapped else dictSet mapped "act_power" kv.2)
    else mapped

/-- `EwayCTCoordinator._map_api_response`: the alias pass, followed by the
guessing fallback whenever `not any(mapped.values())` — i.e. whenever every
alias-mapped value is falsy, not only when no alias matched. -/
def ctMapApiResponse (data : List (String × Json)) : List (String × Json) :=
  let mapped := ctAliasPass data
  if mapped.any (fun p => p.2.truthy) then mapped
  else data.foldl ctGuessStep mapped

/-- Mutable state of the CT HTTP polling session
(`EwayCTCoordinator.__init__`): connectivity flag, the two failure
counters, the `_device_data` snapshot, the coordinator-level `self.data`
dict and the config-fetch debounce flag. -/
structure CTSession where
  connected : Bool
  connectionRetries : Nat
  initialConnectionAttempts : Nat
  deviceData : List (String × Json)
  hassData : Option (List (String × Json))
  configFetchScheduled : Bool
deriving Repr

/-- Outcome of the one `GET /rpc/EM1.GetStatus` call a refresh cycle makes:
an HTTP response with a status code and decoded JSON body, or an
`aiohttp.ClientError`/`asyncio.TimeoutError`. -/
inductive CTHttpOutcome where
  | response (status : Nat) (body : Json)
  | networkError
deriving Repr

/-- Construction of `self._device_data` in the 200 branch of
`_async_update_data`: standardized fields with defaults, the preserved
anti-backflow status and `last_update`. -/
def ctBuildDeviceData (mapped : List (String × Json))
    (hassData : Option (List (String × Json))) (now : Rat) : List (String × Json) :=
  let ab :=
    match dictLookup mapped "anti_backflow" with
    | some v => some v
    | none =>
      match hassData with
      | some d => if d.isEmpty then none else dictLookup d "anti_backflow"
      | none => none
  [("ct_voltage", (dictLookup mapped "voltage").getD (.num 0)),
   ("ct_current", (dictLookup mapped "current").getD (.num 0)),
   ("ct_act_power", (dictLookup mapped "act_power").getD (.num 0)),
   ("ct_aprt_power", (dictLookup mapped "aprt_power").getD (.num 0)),
   ("ct_pf", (dictLookup mapped "pf").getD (.num 0)),
   ("ct_freq", (dictLookup mapped "freq").getD (.num 0)),
   ("ct_calibration", (dictLookup mapped "calibration").getD (.str "")),
   ("ct_errors", (dictLookup mapped "errors").getD (.arr [])),
   ("ct_flags", (dictLookup mapped "flags").getD (.arr [])),
   ("anti_backflow", ab.getD .null),
   ("last_update", .num now)]

/-- `EwayCTCoordinator._async_update_data` as a state transition on one
refresh cycle.  `Except.error` models a raised `UpdateFailed`; `Except.ok`
carries the returned snapshot copy.  A non-dict 200 body raises through the
broad `except Exception` handler after the retry counter has already been
reset. -/
def ctUpdateData (st : CTSession) (out : CTHttpOutcome) (now : Rat) :
    Except String (List (String × Json)) × CTSession :=
  match out with
  | .response status body =>
    if status = 200 then
      let st1 := { st with connectionRetries := 0, connected := true }
      match body with
      | .obj d =>
        let mapped := ctMapApiResponse d
        let dd := ctBuildDeviceData mapped st1.hassData now
        (.ok dd, { st1 with deviceData := dd, configFetchScheduled := true })
      | _ => (.error "Unexpected error", st1)
    else
      let st1 := { st with connectionRetries := st.connectionRetries + 1, connected := false }
      if st1.connectionRetries ≥ 3 then
        (.error "CT device HTTP error after retries", st1)
      else (.ok st1.deviceData, st1)
  | .networkError =>
    if st.connected then
      let st1 := { st with connectionRetries := st.connectionRetries + 1 }
      let st2 := if st1.connectionRetries ≥ 3 then { st1 with connected := false } else st1
      (.error "CT device connection error", st2)
    else
      let st1 := { st with initialConnectionAttempts := st.initialConnectionAttempts + 1 }
      if st1.initialConnectionAttempts ≥ 3 then
        (.error "CT device connection failed after 3 attempts", st1)
      else (.error "CT device connection error", st1)

/-- Coordinator-level `self.data` dict touched by the anti-backflow setter
(`None` until first assigned). -/
structure CTCoordData where
  data : Option (List (String × Json))
deriving Repr

/-- `EwayCTCoordinator.async_set_anti_backflow`: on HTTP 200 the setter
ignores the response body (which does not echo the new value) and
optimistically writes `enable` into `self.data["anti_backflow"]`,
returning `True`; any other status returns `False` without touching the
snapshot. -/
def asyncSetAntiBackflow (enable : Bool) (status : Nat) (_body : Json)
    (st : CTCoordData) : Bool × CTCoordData :=
  if status = 200 then
    let d := st.data.getD []
    (true, ⟨some (dictSet d "anti_backflow" (.bool enable))⟩)
  else (false, st)

/-! ## Charger coordinator: observer notifications per inbound frame

Embeds the control flow of `EwayChargerCoordinator._handle_message` and its
per-topic sub-handlers (charger device type), counting calls to
`async_set_updated_data` and tracking whether processing raised. -/

/-- `message.get("topic", "")` followed by `topic.endswith(...)`:
a missing key defaults to `""`; `none` models the `AttributeError` raised
by `.endswith` on a non-string value. -/
def topicStr (o : List (String × Json)) : Option String :=
  match dictLookup o "topic" with
  | none => some ""
  | some (.str s) => some s
  | some _ => none

/-- Whether `_handle_device_info_response` raises for the charger device
type: every field is read from `payload.get(...)`, so only a non-dict
payload raises. -/
def infoRaises (payload : Json) : Bool :=
  !payload.isObj

/-- Whether `int(value)` on a control record's raw `value` raises
(`int(None)` and non-numeric strings do). -/
def pyIntFails (v : Option Json) : Bool :=
  match v with
  | none => true
  | some j => j.toIntPy.isNone

/-- Whether `_handle_charging_control_response` raises: only a non-dict
first element, or the `int(value)` conversion in the `charg-current`
branch, can. -/
def funcRaises (payload : Json) : Bool :=
  match payload with
  | .arr (x :: _) =>
    match x with
    | .obj o =>
      match dictLookup o "id" with
      | some (.str s) => s = "charg-current" && pyIntFails (dictLookup o "value")
      | _ => false
    | _ => true
  | _ => false

/-- Whether `_handle_charging_event` raises: only `payload[0].get` on a
non-dict first element can (the `json.loads` of error codes is wrapped in
`try`). -/
def eventRaises (payload : Json) : Bool :=
  match payload with
  | .arr (x :: _) => !x.isObj
  | _ => false

/-- Whether `_map_pile_status` raises: `int(status)` on a non-numeric
string does; every other input returns normally. -/
def pileStatusRaises (v : Option Json) : Bool :=
  match v with
  | some (.str s) => (strToIntPy s).isNone
  | _ => false

/-- Whether the batch loop's `int(value) if value else 0` raises for one
guard-approved item. -/
def statusIntValFails (it : Json) : Bool :=
  match it with
  | .obj o => (statusIntVal (dictLookup o "value")).isNone
  | _ => true

/-- Whether `_handle_device_status_message` raises, following the source's
evaluation order: the batch guard itself (non-dict item inside a
three-element array), then either the batch loop's `int` conversions, the
`payload[0].get` of the single-record branch, or `_map_pile_status` in the
dict branch. -/
def propertyRaises (payload : Json) : Bool :=
  match payload with
  | .arr [] => false
  | .arr (x :: rest) =>
    match statusArrayGuard (x :: rest) with
    | none => true
    | some true => (x :: rest).any statusIntValFails
    | some false => !x.isObj
  | .obj d => pileStatusRaises (dictLookup d "pileStatus")
  | _ => false

/-- Whether `_handle_charging_realtime_data` raises: a non-dict payload, or
`_map_signal_strength` failing on the `imt4gRssi` value. -/
def monitor2Raises (payload : Json) : Bool :=
  match payload with
  | .obj d => (mapSignalStrength ((dictLookup d "imt4gRssi").getD (.num (-1)))).isNone
  | _ => true

/-- Python `topic.endswith(suffix)`. -/
def strEndsWith (s suffix : String) : Bool :=
  List.isPrefixOf suffix.data.reverse s.data.reverse

/-- Whether the sub-handler dispatched for the topic raises on this
payload, following `_handle_message`'s suffix dispatch order. -/
def subHandlerRaises (t : String) (payload : Json) : Bool :=
  if strEndsWith t "/info/post" then infoRaises payload
  else if strEndsWith t "/function/post" then funcRaises payload
  else if strEndsWith t "/event/post" then eventRaises payload
  else if strEndsWith t "/property/post" then propertyRaises payload
  else if strEndsWith t "/monitor2/post" then monitor2Raises payload
  else false

/-- Notifications issued for a cleanly-processed dict frame: the
`/info/post` handler issues one of its own before `_handle_message`
issues the per-frame one. -/
def frameNotifyTarget (t : String) : Nat :=
  if strEndsWith t "/info/post" then 2 else 1

/-- `_handle_message` on a dict frame: returns the number of
`async_set_updated_data` notifications and whether processing completed
without raising.  A raising sub-handler (or a non-string topic value)
aborts before any notification. -/
def handleDictFrame (o : List (String × Json)) : Nat × Bool :=
  match topicStr o with
  | none => (0, false)
  | some t =>
    let payload := (dictLookup o "payload").getD (.obj [])
    if subHandlerRaises t payload then (0, false) else (frameNotifyTarget t, true)

/-- `_handle_message` on an arbitrary inbound frame: a list frame is fanned
out over its dict elements (stopping at the first raising element,
skipping non-dict elements); a non-dict non-list frame is logged and
dropped with no notification. -/
def handleFrame (m : Json) : Nat × Bool :=
  match m with
  | .obj o => handleDictFrame o
  | .arr items =>
    items.foldl
      (fun acc it =>
        if acc.2 then
          match it with
          | .obj o => let r := handleDictFrame o; (acc.1 + r.1, r.2)
          | _ => acc
        else acc)
      (0, true)
  | _ => (0, true)

/-! ## WebSocket client

Embeds `EwayWebSocketClient.get_device_info`, `get_device_status`,
`send_message` and `disconnect` from
`custom_components/eway/websocket_client.py`. -/

/-- Error taxonomy of the command-construction path: `ValueError` on a
missing identity component (the spec's `InvalidConfiguration`) and
`ConnectionError` from `send_message`. -/
inductive WSError where
  | invalidConfiguration : String → WSError
  | notConnected : WSError
deriving DecidableEq, Repr

/-- The command envelope built by `get_device_info`. -/
def getDeviceInfoMessage (deviceId deviceSn : String) : Json :=
  .obj [("topic", .str ("/" ++ deviceId ++ "/" ++ deviceSn ++ "/info/get")),
        ("payload", .obj [])]

/-- The command envelope built by `get_device_status`. -/
def getDeviceStatusMessage (deviceId deviceSn : String) : Json :=
  .obj [("topic", .str ("/" ++ deviceId ++ "/" ++ deviceSn ++ "/property/get")),
        ("payload", .obj [])]

/-! ## JSON wire serialization

Modelled from the spec: the envelope layer uses "a textual serialization
(the JSON object model) sent as a single frame" — in the source this is the
Python `json.dumps`/`json.loads` pair, which is outside the repository.
The encoder mirrors `json.dumps` defaults (`", "` and `": "` separators);
the decoder is a fuel-bounded JSON reader for the same fragment
(integer numerals only, string escapes for quote and backslash). -/

/-- Left brace character. -/
def lbrace : Char := Char.ofNat 123

/-- Right brace character. -/
def rbrace : Char := Char.ofNat 125

/-- Double-quote character. -/
def dquote : Char := Char.ofNat 34

/-- Backslash character. -/
def bslash : Char := Char.ofNat 92

/-- JSON string escaping for one character (quote and backslash only). -/
def escapeChar (c : Char) : String :=
  if c = dquote then String.mk [bslash, dquote]
  else if c = bslash then String.mk [bslash, bslash]
  else String.singleton c

/-- A JSON string literal. -/
def encodeString (s : String) : String :=
  String.singleton dquote ++ String.join (s.data.map escapeChar) ++ String.singleton dquote

mutual

/-- `json.dumps` with default separators (non-integral numerals are not
produced by any envelope this development touches). -/
def jsonEncode : Json → String
  | .null => "null"
  | .bool true => "true"
  | .bool false => "false"
  | .num q => if q.den = 1 then toString q.num else toString q
  | .str s => encodeString s
  | .arr l => "[" ++ jsonEncodeItems l ++ "]"
  | .obj l => String.singleton lbrace ++ jsonEncodeMembers l ++ String.singleton rbrace

/-- Comma-joined array items. -/
def jsonEncodeItems : List Json → String
  | [] => ""
  | [x] => jsonEncode x
  | x :: y :: rest => jsonEncode x ++ ", " ++ jsonEncodeItems (y :: rest)

/-- Comma-joined object members with `": "` key separators. -/
def jsonEncodeMembers : List (String × Json) → String
  | [] => ""
  | [p] => encodeString p.1 ++ ": " ++ jsonEncode p.2
  | p :: q :: rest =>
    encodeString p.1 ++ ": " ++ jsonEncode p.2 ++ ", " ++ jsonEncodeMembers (q :: rest)

end

/-- JSON whitespace test. -/
def isWs (c : Char) : Bool :=
  c = ' ' || c = '\n' || c = '\t' || c = '\r'

/-- Drop leading JSON whitespace. -/
def skipWs : List Char → List Char
  | [] => []
  | c :: rest => if isWs c then skipWs rest else c :: rest

/-- Read a JSON string body up to the closing quote. -/
def parseStringBody : Nat → List Char → Option (List Char × List Char)
  | 0, _ => none
  | _ + 1, [] => none
  | fuel + 1, c :: rest =>
    if c = dquote then some ([], rest)
    else if c = bslash then
      match rest with
      | c2 :: r2 =>
        if c2 = dquote || c2 = bslash then
          (parseStringBody fuel r2).map (fun p => (c2 :: p.1, p.2))
        else none
      | [] => none
    else (parseStringBody fuel rest).map (fun p => (c :: p.1, p.2))

/-- Take a maximal run of decimal digits. -/
def takeDigits : List Char → List Char × List Char
  | [] => ([], [])
  | c :: rest =>
    if c.isDigit then
      let p := takeDigits rest
      (c :: p.1, p.2)
    else ([], c :: rest)

/-- Read an integer numeral (optionally negated). -/
def parseNumber (cs : List Char) : Option (Json × List Char) :=
  match cs with
  | [] => none
  | c :: rest =>
    if c = '-' then
      match takeDigits rest with
      | ([], _) => none
      | (ds, r) => some (.num (-(digitsToNat ds : Rat)), r)
    else if c.isDigit then
      match takeDigits (c :: rest) with
      | (ds, r) => some (.num ((digitsToNat ds : Rat)), r)
    else none

mutual

/-- Read one JSON value; the fuel bounds nesting depth. -/
def parseValue : Nat → List Char → Option (Json × List Char)
  | 0, _ => none
  | fuel + 1, cs =>
    match skipWs cs with
    | [] => none
    | c :: rest =>
      if c = dquote then
        (parseStringBody fuel rest).map (fun p => (.str (String.mk p.1), p.2))
      else if c = lbrace then
        match skipWs rest with
        | [] => none
        | c2 :: r2 =>
          if c2 = rbrace then some (.obj [], r2)
          else (parseMembers fuel (c2 :: r2)).map (fun p => (.obj p.1, p.2))
      else if c = '[' then
        match skipWs rest with
        | [] => none
        | c2 :: r2 =>
          if c2 = ']' then some (.arr [], r2)
          else (parseItems fuel (c2 :: r2)).map (fun p => (.arr p.1, p.2))
      else if c = 't' then
        match rest with
        | 'r' :: 'u' :: 'e' :: r => some (.bool true, r)
        | _ => none
      else if c = 'f' then
        match rest with
        | 'a' :: 'l' :: 's' :: 'e' :: r => some (.bool false, r)
        | _ => none
      else if c = 'n' then
        match rest with
        | 'u' :: 'l' :: 'l' :: r => some (.null, r)
        | _ => none
      else parseNumber (c :: rest)

/-- Read the items of a non-empty JSON array, consuming the closing bracket. -/
def parseItems : Nat → List Char → Option (List Json × List Char)
  | 0, _ => none
  | fuel + 1, cs => do
    let (v, r1) ← parseValue fuel cs
    match skipWs r1 with
    | ',' :: r2 => (parseItems fuel r2).map (fun p => (v :: p.1, p.2))
    | ']' :: r2 => some ([v], r2)
    | _ => none

/-- Read the members of a non-empty JSON object, consuming the closing brace. -/
def parseMembers : Nat → List Char → Option (List (String × Json) × List Char)
  | 0, _ => none
  | fuel + 1, cs =>
    match skipWs cs with
    | [] => none
    | c :: rest =>
      if c = dquote then do
        let (k, r1) ← parseStringBody fuel rest
        match skipWs r1 with
        | ':' :: r2 => do
          let (v, r3) ← parseValue fuel r2
          match skipWs r3 with
          | [] => none
          | c5 :: r5 =>
            if c5 = ',' then
              (parseMembers fuel r5).map (fun p => ((String.mk k, v) :: p.1, p.2))
            else if c5 = rbrace then some ([(String.mk k, v)], r5)
            else none
        | _ => none
      else none

end

/-- `json.loads`: read one value and require only whitespace after it. -/
def jsonParse (s : String) : Option Json :=
  match parseValue (s.length + 1) s.data with
  | some (j, rest) => if (skipWs rest).isEmpty then some j else none
  | none => none

/-- `EwayWebSocketClient.get_device_info` followed by `send_message`:
checks both identity components before any frame is built, then refuses to
write unless connected; the second component is the list of frames actually
serialized and written to the socket. -/
def getDeviceInfoCmd (deviceId deviceSn : String) (connected : Bool) :
    Except WSError Unit × List String :=
  if deviceId = "" then
    (.error (.invalidConfiguration "Device ID is required to get device info"), [])
  else if deviceSn = "" then
    (.error (.invalidConfiguration "Device SN is required to get device info"), [])
  else if connected then (.ok (), [jsonEncode (getDeviceInfoMessage deviceId deviceSn)])
  else (.error .notConnected, [])

/-- `EwayWebSocketClient.get_device_status` followed by `send_message`. -/
def getDeviceStatusCmd (deviceId deviceSn : String) (connected : Bool) :
    Except WSError Unit × List String :=
  if deviceId = "" then
    (.error (.invalidConfiguration "Device ID is required to get device status"), [])
  else if deviceSn = "" then
    (.error (.invalidConfiguration "Device SN is required to get device status"), [])
  else if connected then (.ok (), [jsonEncode (getDeviceStatusMessage deviceId deviceSn)])
  else (.error .notConnected, [])

/-- The client state touched by `EwayWebSocketClient.disconnect`:
the connectivity flag, the background read task and the socket handle
(present/absent). -/
structure WSClientState where
  connected : Bool
  listenTask : Bool
  websocket : Bool
deriving DecidableEq, Repr

/-- `EwayWebSocketClient.disconnect`: unconditionally clears the
connectivity flag, cancels and drops the read task (suppressing its
cancellation), and closes and drops the socket (swallowing close errors);
it is a total function of the client state, so it never raises. -/
def wsDisconnect (s : WSClientState) : WSClientState :=
  { s with connected := false, listenTask := false, websocket := false }

/-- A three-refresh sequence of the CT polling session. -/
def ctRefreshAll (st : CTSession) (outs : List (CTHttpOutcome × Rat)) : CTSession :=
  outs.foldl (fun s o => (ctUpdateData s o.1 o.2).2) st

/-! ## Helper lemmas -/

theorem getNested_total_of_objIfPresent (d : List (String × Json)) (k sub : String)
    (dflt : Json) (h : objIfPresent d k = true) :
    ∃ v, getNested d k sub dflt = some v ∧ (dictLookup d k = none → v = dflt) := by
  unfold objIfPresent at h
  cases hk : dictLookup d k with
  | none =>
    refine ⟨dflt, ?_, fun _ => rfl⟩
    unfold getNested
    rw [hk]
    rfl
  | some v =>
    rw [hk] at h
    cases v with
    | obj o =>
      refine ⟨(dictLookup o sub).getD dflt, ?_, fun hn => by simp [hk] at hn⟩
      unfold getNested
      rw [hk]
      rfl
    | null => cases h
    | bool b => cases h
    | num q => cases h
    | str s => cases h
    | arr l => cases h

theorem perm3_bac {α : Type _} (x y z : α) : List.Perm [y, x, z] [x, y, z] :=
  List.Perm.swap x y [z]

theorem perm3_acb {α : Type _} (x y z : α) : List.Perm [x, z, y] [x, y, z] :=
  List.Perm.cons x (List.Perm.swap y z [])

theorem perm3_cba {α : Type _} (x y z : α) : List.Perm [z, y, x] [x, y, z] :=
  ((List.Perm.swap y z [x]).trans (List.Perm.cons y (List.Perm.swap x z []))).trans
    (List.Perm.swap x y [z])

theorem perm3_bca {α : Type _} (x y z : α) : List.Perm [y, z, x] [x, y, z] :=
  (List.Perm.cons y (List.Perm.swap x z [])).trans (List.Perm.swap x y [z])

theorem perm3_cab {α : Type _} (x y z : α) : List.Perm [z, x, y] [x, y, z] :=
  (List.Perm.swap x z [y]).trans (List.Perm.cons x (List.Perm.swap y z []))

theorem perm_two {α : Type _} {y z u v : α} (h : List.Perm [y, z] [u, v]) :
    (y = u ∧ z = v) ∨ (y = v ∧ z = u) := by
  have hy : y ∈ [u, v] := h.mem_iff.mp (List.mem_cons_self y [z])
  rcases List.mem_cons.mp hy with rfl | hy2
  · exact Or.inl ⟨rfl, by simpa using (h.cons_inv.mem_iff.mp (List.mem_cons_self z []))⟩
  · have hyv : y = v := by simpa using hy2
    subst hyv
    exact Or.inr ⟨rfl, by
      simpa using
        (((h.trans (List.Perm.swap y u [])).cons_inv).mem_iff.mp (List.mem_cons_self z []))⟩

theorem perm_three {α : Type _} {l : List α} {a b c : α} (h : List.Perm l [a, b, c]) :
    l = [a, b, c] ∨ l = [a, c, b] ∨ l = [b, a, c] ∨ l = [b, c, a] ∨
    l = [c, a, b] ∨ l = [c, b, a] := by
  obtain ⟨x, y, z, rfl⟩ : ∃ x y z, l = [x, y, z] := by
    have hlen := h.length_eq
    match l, hlen with
    | [x, y, z], _ => exact ⟨x, y, z, rfl⟩
  have hswap_bac : List.Perm [a, b, c] [b, a, c] := List.Perm.swap b a [c]
  have hswap_cab : List.Perm [a, b, c] [c, a, b] :=
    (List.Perm.cons a (List.Perm.swap c b [])).trans (List.Perm.swap c a [b])
  have hx : x ∈ [a, b, c] := h.mem_iff.mp (List.mem_cons_self x [y, z])
  rcases List.mem_cons.mp hx with rfl | hx2
  · rcases perm_two h.cons_inv with ⟨rfl, rfl⟩ | ⟨rfl, rfl⟩
    · exact Or.inl rfl
    · exact Or.inr (Or.inl rfl)
  · rcases List.mem_cons.mp hx2 with rfl | hx3
    · rcases perm_two ((h.trans hswap_bac).cons_inv) with ⟨rfl, rfl⟩ | ⟨rfl, rfl⟩
      · exact Or.inr (Or.inr (Or.inl rfl))
      · exact Or.inr (Or.inr (Or.inr (Or.inl rfl)))
    · have hxc : x = c := by simpa using hx3
      subst hxc
      rcases perm_two ((h.trans hswap_cab).cons_inv) with ⟨rfl, rfl⟩ | ⟨rfl, rfl⟩
      · exact Or.inr (Or.inr (Or.inr (Or.inr (Or.inl rfl))))
      · exact Or.inr (Or.inr (Or.inr (Or.inr (Or.inr rfl))))

theorem processStatusItem_none (t : Rat) (item : Json) :
    processStatusItem t none item = none := rfl

theorem processStatusItem_gun (t : Rat) (acc : DeviceStatusDelta × List StatusResponse)
    (o : List (String × Json)) (h : dictLookup o "id" = some (.str "gun-status")) :
    processStatusItem t (some acc) (.obj o) =
      match statusIntVal (dictLookup o "value") with
      | some n => some ({ acc.1 with gun_status := some n }, acc.2 ++ [respOf t o])
      | none => none := by
  obtain ⟨ds, rs⟩ := acc
  simp [processStatusItem, h]

theorem processStatusItem_charge (t : Rat) (acc : DeviceStatusDelta × List StatusResponse)
    (o : List (String × Json)) (h : dictLookup o "id" = some (.str "charge-status")) :
    processStatusItem t (some acc) (.obj o) =
      match statusIntVal (dictLookup o "value") with
      | some n => some ({ acc.1 with charging_status := some n }, acc.2 ++ [respOf t o])
      | none => none := by
  obtain ⟨ds, rs⟩ := acc
  simp [processStatusItem, h]

theorem processStatusItem_pile (t : Rat) (acc : DeviceStatusDelta × List StatusResponse)
    (o : List (String × Json)) (h : dictLookup o "id" = some (.str "pile-status")) :
    processStatusItem t (some acc) (.obj o) =
      match statusIntVal (dictLookup o "value") with
      | some n => some ({ acc.1 with pile_status := some n }, acc.2 ++ [respOf t o])
      | none => none := by
  obtain ⟨ds, rs⟩ := acc
  simp [processStatusItem, h]

/-! ## Claim theorems -/

/-- C6: calling the anti-backflow set command with `enable=True` against an
endpoint answering HTTP 200 with body `{"restart_required": false}` (no
echoed value) returns success and leaves the snapshot's `anti_backflow`
field equal to `True` immediately after the call returns. -/
theorem anti_backflow_optimistic_write (st : CTCoordData) :
    (asyncSetAntiBackflow true 200 (.obj [("restart_required", .bool false)]) st).1 = true ∧
    dictLookup
      (((asyncSetAntiBackflow true 200 (.obj [("restart_required", .bool false)]) st).2).data.getD [])
      "anti_backflow" = some (.bool true) := by
  refine ⟨rfl, ?_⟩
  simp [asyncSetAntiBackflow, dictLookup_dictSet_self]

/-- C7: `get_device_info` and `get_device_status` invoked with either
identity component empty fail with the invalid-configuration error before
any network I/O: no frame is serialized or written to the socket. -/
theorem command_requires_identity (deviceId deviceSn : String) (connected : Bool)
    (h : deviceId = "" ∨ deviceSn = "") :
    (∃ m, (getDeviceInfoCmd deviceId deviceSn connected).1
        = .error (.invalidConfiguration m)) ∧
    (getDeviceInfoCmd deviceId deviceSn connected).2 = [] ∧
    (∃ m, (getDeviceStatusCmd deviceId deviceSn connected).1
        = .error (.invalidConfiguration m)) ∧
    (getDeviceStatusCmd deviceId deviceSn connected).2 = [] := by
  rcases h with h | h
  · subst h
    exact ⟨⟨_, rfl⟩, rfl, ⟨_, rfl⟩, rfl⟩
  · subst h
    by_cases hid : deviceId = ""
    · subst hid
      exact ⟨⟨_, rfl⟩, rfl, ⟨_, rfl⟩, rfl⟩
    · simp [getDeviceInfoCmd, getDeviceStatusCmd, hid]

/-- Witness for C7 at the concrete identity `("", "SN123")`. -/
theorem command_requires_identity_witness :
    (("" : String) = "" ∨ ("SN123" : String) = "") ∧
    ((∃ m, (getDeviceInfoCmd "" "SN123" true).1 = .error (.invalidConfiguration m)) ∧
     (getDeviceInfoCmd "" "SN123" true).2 = [] ∧
     (∃ m, (getDeviceStatusCmd "" "SN123" true).1 = .error (.invalidConfiguration m)) ∧
     (getDeviceStatusCmd "" "SN123" true).2 = []) :=
  ⟨Or.inl rfl, command_requires_identity "" "SN123" true (Or.inl rfl)⟩

/-- C8: encoding and then decoding the command envelope produced by
`get_device_info()` with deviceId `"ABC"` and deviceSn `"123"` yields an
envelope with topic `/ABC/123/info/get` and an empty-object payload. -/
theorem get_device_info_roundtrip :
    jsonParse (jsonEncode (getDeviceInfoMessage "ABC" "123")) =
      some (.obj [("topic", .str "/ABC/123/info/get"), ("payload", .obj [])]) := by
  rfl

/-- C9: `disconnect()` is idempotent and never raises: it is a total
function of the client state, leaves the state disconnected after each of
two consecutive calls, and the second call changes nothing. -/
theorem disconnect_idempotent (s : WSClientState) :
    (wsDisconnect s).connected = false ∧
    (wsDisconnect (wsDisconnect s)).connected = false ∧
    wsDisconnect (wsDisconnect s) = wsDisconnect s :=
  ⟨rfl, rfl, rfl⟩

/-- C10: on any JSON-object payload whose `temperature`, `aenergy` and
`ret_aenergy` fields, when present, are objects, the smart-plug status
mapper returns all eight output fields, substituting the fixed defaults for
every missing vendor field, and never raises. -/
theorem smart_plug_mapper_total (d : List (String × Json))
    (ht : objIfPresent d "temperature" = true)
    (ha : objIfPresent d "aenergy" = true)
    (hr : objIfPresent d "ret_aenergy" = true) :
    ∃ r : SmartPlugData, spMapApiResponse (.obj d) = some r ∧
      (dictLookup d "output" = none → r.switch_state = .bool false) ∧
      (dictLookup d "apower" = none → r.power = .num 0) ∧
      (dictLookup d "voltage" = none → r.voltage = .num 0) ∧
      (dictLookup d "current" = none → r.current = .num 0) ∧
      (dictLookup d "freq" = none → r.frequency = .num 0) ∧
      (dictLookup d "temperature" = none → r.temperature = .num 0) ∧
      (dictLookup d "aenergy" = none → r.energy_total = .num 0) ∧
      (dictLookup d "ret_aenergy" = none → r.ret_energy_total = .num 0) := by
  obtain ⟨tv, htv, htd⟩ := getNested_total_of_objIfPresent d "temperature" "tC" (.num 0) ht
  obtain ⟨ev, hev, hed⟩ := getNested_total_of_objIfPresent d "aenergy" "total" (.num 0) ha
  obtain ⟨rv, hrv, hrd⟩ := getNested_total_of_objIfPresent d "ret_aenergy" "total" (.num 0) hr
  refine ⟨{ switch_state := (dictLookup d "output").getD (.bool false)
            power := (dictLookup d "apower").getD (.num 0)
            voltage := (dictLookup d "voltage").getD (.num 0)
            current := (dictLookup d "current").getD (.num 0)
            frequency := (dictLookup d "freq").getD (.num 0)
            temperature := tv
            energy_total := ev
            ret_energy_total := rv }, ?_, ?_, ?_, ?_, ?_, ?_, ?_, ?_, ?_⟩
  · simp [spMapApiResponse, htv, hev, hrv]
  · intro h; simp [h]
  · intro h; simp [h]
  · intro h; simp [h]
  · intro h; simp [h]
  · intro h; simp [h]
  · exact htd
  · exact hed
  · exact hrd

/-- Witness for C10 at the empty payload: every field takes its default. -/
theorem smart_plug_mapper_total_witness :
    (objIfPresent [] "temperature" = true ∧ objIfPresent [] "aenergy" = true ∧
      objIfPresent [] "ret_aenergy" = true) ∧
    (∃ r : SmartPlugData, spMapApiResponse (.obj []) = some r ∧
      (dictLookup [] "output" = none → r.switch_state = .bool false) ∧
      (dictLookup [] "apower" = none → r.power = .num 0) ∧
      (dictLookup [] "voltage" = none → r.voltage = .num 0) ∧
      (dictLookup [] "current" = none → r.current = .num 0) ∧
      (dictLookup [] "freq" = none → r.frequency = .num 0) ∧
      (dictLookup [] "temperature" = none → r.temperature = .num 0) ∧
      (dictLookup [] "aenergy" = none → r.energy_total = .num 0) ∧
      (dictLookup [] "ret_aenergy" = none → r.ret_energy_total = .num 0)) :=
  ⟨⟨rfl, rfl, rfl⟩, smart_plug_mapper_total [] rfl rfl rfl⟩

/-- C1: with the CT session already connected and its failure counter
clear, three consecutive refresh cycles that receive non-2xx responses
from the status endpoint leave the session disconnected, and a fourth
refresh receiving a non-2xx response raises `UpdateFailed`. -/
theorem ct_retry_bound (st : CTSession) (s1 s2 s3 s4 : Nat) (b1 b2 b3 b4 : Json)
    (n1 n2 n3 n4 : Rat)
    (_hc : st.connected = true) (hr : st.connectionRetries = 0)
    (h1 : s1 ≠ 200) (h2 : s2 ≠ 200) (h3 : s3 ≠ 200) (h4 : s4 ≠ 200) :
    (ctRefreshAll st
        [(.response s1 b1, n1), (.response s2 b2, n2), (.response s3 b3, n3)]).connected
      = false ∧
    ∃ e, (ctUpdateData
        (ctRefreshAll st [(.response s1 b1, n1), (.response s2 b2, n2), (.response s3 b3, n3)])
        (.response s4 b4) n4).1 = .error e := by
  simp [ctRefreshAll, ctUpdateData, h1, h2, h3, h4, hr]

/-- Witness for C1: a concrete connected session and four HTTP 500s. -/
theorem ct_retry_bound_witness :
    (CTSession.mk true 0 0 [] none false).connected = true ∧
    (CTSession.mk true 0 0 [] none false).connectionRetries = 0 ∧
    (500 : Nat) ≠ 200 ∧
    ((ctRefreshAll (CTSession.mk true 0 0 [] none false)
        [(.response 500 .null, 0), (.response 500 .null, 0), (.response 500 .null, 0)]).connected
      = false ∧
    ∃ e, (ctUpdateData
        (ctRefreshAll (CTSession.mk true 0 0 [] none false)
          [(.response 500 .null, 0), (.response 500 .null, 0), (.response 500 .null, 0)])
        (.response 500 .null) 0).1 = .error e) :=
  ⟨rfl, rfl, by decide,
    ct_retry_bound (CTSession.mk true 0 0 [] none false) 500 500 500 500 .null .null .null .null
      0 0 0 0 rfl rfl (by decide) (by decide) (by decide) (by decide)⟩

/-- C2 counterexample: an inbound real-time payload with `wifiRssi: -1`
stores the raw reading `-1` in `charging_realtime.wifi_rssi`, not a
normalized absent value. -/
theorem wifi_rssi_sentinel_counterexample :
    (handleChargingRealtimeData [("wifiRssi", Json.num (-1))]).map ChargingRealtime.wifi_rssi
      = some (Json.num (-1)) ∧ (Json.num (-1) : Json) ≠ Json.null := by
  refine ⟨rfl, ?_⟩
  intro h
  exact Json.noConfusion h

/-- C2 amended: the router stores the raw `wifiRssi` reading unchanged
(`-1` included); the `-1 → unavailable` normalization happens in the
sensor layer, whose native value for the WiFi signal sensor is `None`
whenever the stored reading is `-1`. -/
theorem wifi_rssi_raw_then_sensor_normalizes (payload : List (String × Json))
    (h : dictLookup payload "wifiRssi" = some (Json.num (-1))) :
    ∀ r, handleChargingRealtimeData payload = some r →
      r.wifi_rssi = Json.num (-1) ∧ wifiRssiNativeValue r = none := by
  intro r hr
  unfold handleChargingRealtimeData at hr
  cases him : mapSignalStrength ((dictLookup payload "imt4gRssi").getD (.num (-1))) with
  | none => rw [him] at hr; cases hr
  | some imt =>
    rw [him] at hr
    simp at hr
    subst hr
    refine ⟨by simp [h], ?_⟩
    simp [wifiRssiNativeValue, h, Json.eqInt]

/-- Witness for C2's amended theorem at the concrete payload
`{"wifiRssi": -1}`. -/
theorem wifi_rssi_raw_then_sensor_normalizes_witness :
    dictLookup [("wifiRssi", Json.num (-1))] "wifiRssi" = some (Json.num (-1)) ∧
    (∀ r, handleChargingRealtimeData [("wifiRssi", Json.num (-1))] = some r →
      r.wifi_rssi = Json.num (-1) ∧ wifiRssiNativeValue r = none) :=
  ⟨rfl, wifi_rssi_raw_then_sensor_normalizes _ rfl⟩

/-- C4: the CT status mapper applies the numeric range-guessing fallback on
the body `{"voltage": 0, "x": 230}` even though the known alias `voltage`
matched a field — its output contains guessed assignments (`voltage`
overwritten to `230`, a guessed `pf` of `0`) because the fallback is gated
on all alias-mapped values being falsy, not on no alias having matched. -/
theorem ct_mapper_guesses_despite_alias_match :
    ctAliasPass [("voltage", Json.num 0), ("x", Json.num 230)]
      = [("voltage", Json.num 0)] ∧
    ctMapApiResponse [("voltage", Json.num 0), ("x", Json.num 230)]
      = [("voltage", Json.num 230), ("pf", Json.num 0)] :=
  ⟨rfl, rfl⟩

/-- C3 amended: a batch status array whose three entries carry the ids
gun-status, charge-status and pile-status produces, in any permutation of
its entries, the same `device_status` delta (hence the same merge result);
the `device_status_responses` replacement contains the same records but in
array order, so it is only equal up to permutation.  The specification's
example array yields `device_status = {gun_status: 1, charging_status: 0,
pile_status: 1}`. -/
theorem status_batch_order_independent (t : Rat) (a b c : Json) (l : List Json)
    (hperm : List.Perm l [a, b, c])
    (ha : jsonId a = some (.str "gun-status"))
    (hb : jsonId b = some (.str "charge-status"))
    (hc : jsonId c = some (.str "pile-status")) :
    statusArrayGuard l = some true ∧
    (runStatusBatch t l).map Prod.fst = (runStatusBatch t [a, b, c]).map Prod.fst ∧
    (∀ r r', runStatusBatch t l = some r → runStatusBatch t [a, b, c] = some r' →
      List.Perm r.2 r'.2) ∧
    (runStatusBatch 0 exampleStatusArray).map Prod.fst
      = some { gun_status := some 1, charging_status := some 0, pile_status := some 1 } := by
  obtain ⟨oa, rfl⟩ : ∃ o, a = Json.obj o := by cases a <;> simp [jsonId] at ha ⊢
  obtain ⟨ob, rfl⟩ : ∃ o, b = Json.obj o := by cases b <;> simp [jsonId] at hb ⊢
  obtain ⟨oc, rfl⟩ : ∃ o, c = Json.obj o := by cases c <;> simp [jsonId] at hc ⊢
  simp only [jsonId] at ha hb hc
  have hex : (runStatusBatch 0 exampleStatusArray).map Prod.fst
      = some { gun_status := some 1, charging_status := some 0, pile_status := some 1 } := rfl
  have hia : isStatusId ((dictLookup oa "id").getD .null) = true := by simp [ha, isStatusId]
  have hib : isStatusId ((dictLookup ob "id").getD .null) = true := by simp [hb, isStatusId]
  have hic : isStatusId ((dictLookup oc "id").getD .null) = true := by simp [hc, isStatusId]
  have hguard : ∀ o1 o2 o3 : List (String × Json),
      isStatusId ((dictLookup o1 "id").getD .null) = true →
      isStatusId ((dictLookup o2 "id").getD .null) = true →
      isStatusId ((dictLookup o3 "id").getD .null) = true →
      statusArrayGuard [.obj o1, .obj o2, .obj o3] = some true := by
    intro o1 o2 o3 h1 h2 h3
    simp [statusArrayGuard, statusGuardGo, h1, h2, h3]
  rcases perm_three hperm with rfl | rfl | rfl | rfl | rfl | rfl
  · refine ⟨hguard _ _ _ hia hib hic, rfl, ?_, hex⟩
    intro r r' h1 h2
    rw [h1] at h2
    cases h2
    exact List.Perm.refl _
  · refine ⟨hguard _ _ _ hia hic hib, ?_, ?_, hex⟩
    · rcases hva : statusIntVal (dictLookup oa "value") with _ | na <;>
      rcases hvb : statusIntVal (dictLookup ob "value") with _ | nb <;>
      rcases hvc : statusIntVal (dictLookup oc "value") with _ | nc <;>
      simp [runStatusBatch, processStatusItem_none, processStatusItem_gun,
            processStatusItem_charge, processStatusItem_pile, ha, hb, hc, hva, hvb, hvc]
    · intro r r' h1 h2
      rcases hva : statusIntVal (dictLookup oa "value") with _ | na <;>
      rcases hvb : statusIntVal (dictLookup ob "value") with _ | nb <;>
      rcases hvc : statusIntVal (dictLookup oc "value") with _ | nc <;>
      simp [runStatusBatch, processStatusItem_none, processStatusItem_gun,
            processStatusItem_charge, processStatusItem_pile,
            ha, hb, hc, hva, hvb, hvc] at h1 h2 <;>
      subst h1 <;> subst h2 <;>
      exact perm3_acb _ _ _
  · refine ⟨hguard _ _ _ hib hia hic, ?_, ?_, hex⟩
    · rcases hva : statusIntVal (dictLookup oa "value") with _ | na <;>
      rcases hvb : statusIntVal (dictLookup ob "value") with _ | nb <;>
      rcases hvc : statusIntVal (dictLookup oc "value") with _ | nc <;>
      simp [runStatusBatch, processStatusItem_none, processStatusItem_gun,
            processStatusItem_charge, processStatusItem_pile, ha, hb, hc, hva, hvb, hvc]
    · intro r r' h1 h2
      rcases hva : statusIntVal (dictLookup oa "value") with _ | na <;>
      rcases hvb : statusIntVal (dictLookup ob "value") with _ | nb <;>
      rcases hvc : statusIntVal (dictLookup oc "value") with _ | nc <;>
      simp [runStatusBatch, processStatusItem_none, processStatusItem_gun,
            processStatusItem_charge, processStatusItem_pile,
            ha, hb, hc, hva, hvb, hvc] at h1 h2 <;>
      subst h1 <;> subst h2 <;>
      exact perm3_bac _ _ _
  · refine ⟨hguard _ _ _ hib hic hia, ?_, ?_, hex⟩
    · rcases hva : statusIntVal (dictLookup oa "value") with _ | na <;>
      rcases hvb : statusIntVal (dictLookup ob "value") with _ | nb <;>
      rcases hvc : statusIntVal (dictLookup oc "value") with _ | nc <;>
      simp [runStatusBatch, processStatusItem_none, processStatusItem_gun,
            processStatusItem_charge, processStatusItem_pile, ha, hb, hc, hva, hvb, hvc]
    · intro r r' h1 h2
      rcases hva : statusIntVal (dictLookup oa "value") with _ | na <;>
      rcases hvb : statusIntVal (dictLookup ob "value") with _ | nb <;>
      rcases hvc : statusIntVal (dictLookup oc "value") with _ | nc <;>
      simp [runStatusBatch, processStatusItem_none, processStatusItem_gun,
            processStatusItem_charge, processStatusItem_pile,
            ha, hb, hc, hva, hvb, hvc] at h1 h2 <;>
      subst h1 <;> subst h2 <;>
      exact perm3_bca _ _ _
  · refine ⟨hguard _ _ _ hic hia hib, ?_, ?_, hex⟩
    · rcases hva : statusIntVal (dictLookup oa "value") with _ | na <;>
      rcases hvb : statusIntVal (dictLookup ob "value") with _ | nb <;>
      rcases hvc : statusIntVal (dictLookup oc "value") with _ | nc <;>
      simp [runStatusBatch, processStatusItem_none, processStatusItem_gun,
            processStatusItem_charge, processStatusItem_pile, ha, hb, hc, hva, hvb, hvc]
    · intro r r' h1 h2
      rcases hva : statusIntVal (dictLookup oa "value") with _ | na <;>
      rcases hvb : statusIntVal (dictLookup ob "value") with _ | nb <;>
      rcases hvc : statusIntVal (dictLookup oc "value") with _ | nc <;>
      simp [runStatusBatch, processStatusItem_none, processStatusItem_gun,
            processStatusItem_charge, processStatusItem_pile,
            ha, hb, hc, hva, hvb, hvc] at h1 h2 <;>
      subst h1 <;> subst h2 <;>
      exact perm3_cab _ _ _
  · refine ⟨hguard _ _ _ hic hib hia, ?_, ?_, hex⟩
    · rcases hva : statusIntVal (dictLookup oa "value") with _ | na <;>
      rcases hvb : statusIntVal (dictLookup ob "value") with _ | nb <;>
      rcases hvc : statusIntVal (dictLookup oc "value") with _ | nc <;>
      simp [runStatusBatch, processStatusItem_none, processStatusItem_gun,
            processStatusItem_charge, processStatusItem_pile, ha, hb, hc, hva, hvb, hvc]
    · intro r r' h1 h2
      rcases hva : statusIntVal (dictLookup oa "value") with _ | na <;>
      rcases hvb : statusIntVal (dictLookup ob "value") with _ | nb <;>
      rcases hvc : statusIntVal (dictLookup oc "value") with _ | nc <;>
      simp [runStatusBatch, processStatusItem_none, processStatusItem_gun,
            processStatusItem_charge, processStatusItem_pile,
            ha, hb, hc, hva, hvb, hvc] at h1 h2 <;>
      subst h1 <;> subst h2 <;>
      exact perm3_cba _ _ _

/-- Witness for C3's amended theorem: the specification's example array,
processed with its first two entries swapped. -/
theorem status_batch_order_independent_witness :
    List.Perm [chargeStatusRecord, gunStatusRecord, pileStatusRecord] exampleStatusArray ∧
    jsonId gunStatusRecord = some (.str "gun-status") ∧
    jsonId chargeStatusRecord = some (.str "charge-status") ∧
    jsonId pileStatusRecord = some (.str "pile-status") ∧
    (statusArrayGuard [chargeStatusRecord, gunStatusRecord, pileStatusRecord] = some true ∧
     (runStatusBatch 0 [chargeStatusRecord, gunStatusRecord, pileStatusRecord]).map Prod.fst
       = (runStatusBatch 0 exampleStatusArray).map Prod.fst ∧
     (∀ r r', runStatusBatch 0 [chargeStatusRecord, gunStatusRecord, pileStatusRecord] = some r →
        runStatusBatch 0 exampleStatusArray = some r' → List.Perm r.2 r'.2) ∧
     (runStatusBatch 0 exampleStatusArray).map Prod.fst
       = some { gun_status := some 1, charging_status := some 0, pile_status := some 1 }) :=
  ⟨perm3_bac _ _ _, rfl, rfl, rfl,
    status_batch_order_independent 0 gunStatusRecord chargeStatusRecord pileStatusRecord
      [chargeStatusRecord, gunStatusRecord, pileStatusRecord]
      (perm3_bac _ _ _) rfl rfl rfl⟩

/-- C3 counterexample: swapping the first two entries of the example batch
array preserves the `device_status` delta but changes the order of the
`device_status_responses` list, so the handler's full result differs — the
responses replacement is not literally the same for every permutation. -/
theorem status_batch_responses_order_counterexample :
    (runStatusBatch 0 [chargeStatusRecord, gunStatusRecord, pileStatusRecord]).map Prod.fst
      = (runStatusBatch 0 exampleStatusArray).map Prod.fst ∧
    (runStatusBatch 0 [chargeStatusRecord, gunStatusRecord, pileStatusRecord]).map
        (fun p => p.2.map StatusResponse.id)
      = some [some (.str "charge-status"), some (.str "gun-status"),
              some (.str "pile-status")] ∧
    (runStatusBatch 0 exampleStatusArray).map (fun p => p.2.map StatusResponse.id)
      = some [some (.str "gun-status"), some (.str "charge-status"),
              some (.str "pile-status")] ∧
    runStatusBatch 0 [chargeStatusRecord, gunStatusRecord, pileStatusRecord]
      ≠ runStatusBatch 0 exampleStatusArray := by
  refine ⟨rfl, rfl, rfl, ?_⟩
  intro h
  have h2 := congrArg (Option.map (fun p => p.2.map StatusResponse.id)) h
  rw [show (runStatusBatch 0 [chargeStatusRecord, gunStatusRecord, pileStatusRecord]).map
        (fun p => p.2.map StatusResponse.id)
      = some [some (Json.str "charge-status"), some (Json.str "gun-status"),
              some (Json.str "pile-status")] from rfl,
      show (runStatusBatch 0 exampleStatusArray).map (fun p => p.2.map StatusResponse.id)
      = some [some (Json.str "gun-status"), some (Json.str "charge-status"),
              some (Json.str "pile-status")] from rfl] at h2
  simp at h2

/-- C5 counterexample: a single inbound list frame containing two dict
messages (neither on `/info/post`) notifies the observers twice, not once. -/
theorem notify_once_per_frame_counterexample :
    handleFrame (.arr [.obj [("topic", Json.str "/d/s/property/post")],
                       .obj [("topic", Json.str "/d/s/property/post")]]) = (2, true) ∧
    (2 : Nat) ≠ 1 :=
  ⟨rfl, by decide⟩

/-- C5 amended: for every inbound object frame whose processing completes
without an internal exception, observers are notified exactly once, except
`/info/post` frames, which notify exactly twice; a list frame instead
notifies once per cleanly-processed dict element. -/
theorem notify_once_per_object_frame (o : List (String × Json)) (t : String)
    (ht : topicStr o = some t) (hok : (handleDictFrame o).2 = true) :
    (handleDictFrame o).1 = if strEndsWith t "/info/post" then 2 else 1 := by
  unfold handleDictFrame at hok ⊢
  rw [ht] at hok ⊢
  by_cases hraise : subHandlerRaises t ((dictLookup o "payload").getD (.obj [])) = true
  · simp [hraise] at hok
  · simp only [Bool.not_eq_true] at hraise
    simp [hraise, frameNotifyTarget]

/-- Witness for C5's amended theorem at a concrete `/info/post` frame. -/
theorem notify_once_per_object_frame_witness :
    topicStr [("topic", Json.str "/dev/sn/info/post")] = some "/dev/sn/info/post" ∧
    (handleDictFrame [("topic", Json.str "/dev/sn/info/post")]).2 = true ∧
    (handleDictFrame [("topic", Json.str "/dev/sn/info/post")]).1
      = if strEndsWith "/dev/sn/info/post" "/info/post" then 2 else 1 :=
  ⟨rfl, rfl, notify_once_per_object_frame _ _ rfl rfl⟩

end Eway
